import Mathlib

/- Verification development for the NetScout-Pi plugin engine, result store
and network link monitor. Each definition below is a shallow embedding of
one Python function of the repository:

  src/core/plugin_manager.py      (PluginBase, PluginManager.run_sequence)
  src/core/new_plugin_manager.py  (NewPluginManager)
  src/core/logger.py              (PluginLogger)
  src/core/network_monitor.py     (NetworkMonitor)
  app/plugins/manager.py          (PluginManager.execute_plugin, _validate_manifest)

Modelling conventions, used throughout:
  - uuid4 draws are modelled by a counter threaded through the state, so
    every draw yields a value distinct from every earlier draw;
  - ISO timestamp strings are modelled as Nat values ordered the same way;
  - Python dicts are association lists with unique keys, updated in place;
  - file paths of result files are Nat keys allocated in increasing order,
    so list order of the files store is modification-time order;
  - exceptions of a plugin body are an Except value fed into the wrapper. -/

/-- Association-list lookup with decidable key equality; models Python dict
membership tests and item access (keys are unique, first binding wins). -/
def dictLookup {α β : Type} [DecidableEq α] (k : α) : List (α × β) → Option β
  | [] => none
  | (k0, v0) :: rest => if k0 = k then some v0 else dictLookup k rest

/-- Association-list update; models Python dict assignment: an existing
binding is replaced in place, a fresh key is appended at the end. -/
def dictInsert {α β : Type} [DecidableEq α] : List (α × β) → α → β → List (α × β)
  | [], k, v => [(k, v)]
  | (k0, v0) :: rest, k, v =>
      if k0 = k then (k, v) :: rest else (k0, v0) :: dictInsert rest k v

/-- Lifecycle status strings used by PluginBase (src/core/plugin_manager.py):
the engine itself only writes idle, running, completed and error; a plugin may
pass any other string through update_progress, modelled by the custom code. -/
inductive PStatus
  | idle
  | running
  | completed
  | error
  | custom (code : Nat)
  deriving DecidableEq

/-- One persisted run record: the JSON document written by
PluginLogger.save_result (src/core/logger.py lines 184-230). Keys the source
adds to the result dict are Option fields; payload stands for the data the
plugin body itself returned. -/
structure StoredResult where
  run_id : Option Nat
  timestamp : Option Nat
  plugin_name : Option String
  execution_time : Option Int
  plugin_meta : Option String
  payload : Nat
  deriving DecidableEq

/-- One entry of the results index maintained by
PluginLogger._update_result_index: run identifier, timestamp and the path of
the record file (src/core/logger.py lines 357-400). -/
structure IndexEntry where
  run_id : Option Nat
  timestamp : Option Nat
  file : Nat
  deriving DecidableEq

/-- State of one PluginLogger (src/core/logger.py): the current run metadata
plus the on-disk results directory (index.json, result files, error files). -/
structure LoggerState where
  plugin_name : String
  current_run_id : Option Nat
  run_start_time : Option Nat
  index : List IndexEntry
  files : List (Nat × StoredResult)
  next_path : Nat
  errors : List (Option Nat × Nat)
  deriving DecidableEq

/-- PluginLogger.__init__: no current run, empty results directory. -/
def loggerInit (name : String) : LoggerState :=
  { plugin_name := name, current_run_id := none, run_start_time := none,
    index := [], files := [], next_path := 0, errors := [] }

/-- PluginLogger.start_run (src/core/logger.py lines 122-133): draws a fresh
uuid4 as current_run_id and records the wall-clock start time; returns the
updated logger and the advanced uuid counter. -/
def start_run (lg : LoggerState) (c : Nat) (t : Nat) : LoggerState × Nat :=
  ({ lg with current_run_id := some c, run_start_time := some t }, c + 1)

/-- MAX_RESULTS_STORED of src/core/logger.py line 22. -/
def MAX_RESULTS_STORED : Nat := 100

/-- Sort key of the index: entry.get with an empty-string default, modelled
as 0, the smallest timestamp. -/
def entryKey (e : IndexEntry) : Nat := e.timestamp.getD 0

/-- Stable descending insertion used to model the Python stable sort
index.sort by timestamp with reverse order: an entry moves left past
strictly smaller keys only, so equal keys keep their original order. -/
def insertDesc (e : IndexEntry) : List IndexEntry → List IndexEntry
  | [] => [e]
  | f :: rest =>
      if entryKey f ≤ entryKey e then e :: f :: rest else f :: insertDesc e rest

/-- Stable descending sort of the results index by timestamp, the effect of
index.sort in _update_result_index and get_results. -/
def sortDesc : List IndexEntry → List IndexEntry
  | [] => []
  | e :: rest => insertDesc e (sortDesc rest)

/-- PluginLogger._update_result_index (src/core/logger.py lines 357-400):
appends the new entry, re-sorts newest first and caps the index at
MAX_RESULTS_STORED entries. -/
def update_result_index (lg : LoggerState) (file : Nat) (r : StoredResult) : LoggerState :=
  let entry : IndexEntry := { run_id := r.run_id, timestamp := r.timestamp, file := file }
  { lg with index := (sortDesc (lg.index ++ [entry])).take MAX_RESULTS_STORED }

/-- PluginLogger._cleanup_old_results (src/core/logger.py lines 402-422):
deletes the oldest result files, keeping the newest MAX_RESULTS_STORED.
The files list is in path-allocation order, which is modification order. -/
def cleanup_old_results (lg : LoggerState) : LoggerState :=
  { lg with files := lg.files.drop (lg.files.length - MAX_RESULTS_STORED) }

/-- PluginLogger.save_result (src/core/logger.py lines 184-230): draws a
fresh uuid when no current run id is set, overwrites run_id, timestamp and
plugin_name on the result dict, fills execution_time when absent, writes the
record file, updates the index and prunes old files. Returns the new logger
state, the uuid counter and the record exactly as written. -/
def save_result (lg : LoggerState) (c : Nat) (ts : Nat) (now : Nat) (r : StoredResult) :
    LoggerState × Nat × StoredResult :=
  let cur : Nat := match lg.current_run_id with
    | some i => i
    | none => c
  let c2 : Nat := match lg.current_run_id with
    | some _ => c
    | none => c + 1
  let et : Option Int := match r.execution_time, lg.run_start_time with
    | none, some t0 => some ((now : Int) - (t0 : Int))
    | e, _ => e
  let r2 : StoredResult :=
    { r with run_id := some cur, timestamp := some ts,
             plugin_name := some lg.plugin_name, execution_time := et }
  let path := lg.next_path
  let lg2 : LoggerState :=
    { lg with current_run_id := some cur,
              files := lg.files ++ [(path, r2)], next_path := path + 1 }
  let lg3 := update_result_index lg2 path r2
  (cleanup_old_results lg3, c2, r2)

/-- PluginLogger.save_error (src/core/logger.py lines 232-270): writes an
error document carrying current_run_id, or a fresh uuid when none is set,
into the errors directory (never into the results index). -/
def save_error (lg : LoggerState) (c : Nat) (msg : Nat) : LoggerState × Nat :=
  match lg.current_run_id with
  | some i => ({ lg with errors := lg.errors ++ [(some i, msg)] }, c)
  | none => ({ lg with errors := lg.errors ++ [(some c, msg)] }, c + 1)

/-- Scanning loop of PluginLogger.get_result (src/core/logger.py lines
272-304): walk the index in stored order; at the first entry whose run_id
matches, load the record file if it still exists, otherwise keep scanning. -/
def result_scan (files : List (Nat × StoredResult)) (rid : Nat) :
    List IndexEntry → Option StoredResult
  | [] => none
  | e :: rest =>
      if e.run_id = some rid then
        match dictLookup e.file files with
        | some r => some r
        | none => result_scan files rid rest
      else result_scan files rid rest

/-- PluginLogger.get_result: look a record up by run identifier through the
results index. -/
def get_result (lg : LoggerState) (rid : Nat) : Option StoredResult :=
  result_scan lg.files rid lg.index

/-- Live state of one loaded plugin, the fields set by PluginBase.__init__
(src/core/plugin_manager.py lines 34-48). -/
structure PluginInstance where
  running : Bool
  status : PStatus
  progress : Int
  run_id : Option Nat
  result : Option StoredResult
  deriving DecidableEq

/-- PluginBase.__init__: idle, progress 0, no run id, no result. -/
def pluginInit : PluginInstance :=
  { running := false, status := PStatus.idle, progress := 0,
    run_id := none, result := none }

/-- PluginBase.update_progress (src/core/plugin_manager.py lines 145-154):
clamps the reported value into 0..100 and optionally replaces the status. -/
def update_progress (inst : PluginInstance) (p : Int) (s : Option PStatus) : PluginInstance :=
  { inst with progress := min (max 0 p) 100,
              status := match s with
                | some st => st
                | none => inst.status }

/-- PluginBase.async_run (src/core/plugin_manager.py lines 61-87): refuses a
second concurrent run by returning none; otherwise marks the instance
running, resets progress to 0, draws a fresh uuid4 run identifier, starts the
worker thread and returns the run identifier at once. -/
def async_run (inst : PluginInstance) (c : Nat) : Option Nat × PluginInstance × Nat :=
  if inst.running then (none, inst, c)
  else (some c,
        { inst with running := true, status := PStatus.running,
                    progress := 0, run_id := some c },
        c + 1)

/-- PluginBase._run_wrapper (src/core/plugin_manager.py lines 89-143), the
worker thread body after the plugin body finished: on success it stamps the
result dict with the issued run_id, the plugin metadata and the execution
time, stores it through the logger and marks the instance completed; any
exception, including the TypeError raised by the execution-time subtraction
when run_start_time is unset, lands in the except branch, which saves an
error document and marks the instance errored. The finally block clears
running in every case. -/
def run_wrapper (inst : PluginInstance) (lg : LoggerState) (c : Nat)
    (pname : String) (body : Except Nat Nat) (now : Nat) :
    PluginInstance × LoggerState × Nat :=
  let inst0 : PluginInstance := { inst with progress := 0 }
  match body with
  | Except.error e =>
      let (lg2, c2) := save_error lg c e
      ({ inst0 with status := PStatus.error, running := false }, lg2, c2)
  | Except.ok payload =>
      match lg.run_start_time with
      | none =>
          let (lg2, c2) := save_error lg c 0
          ({ inst0 with status := PStatus.error, running := false }, lg2, c2)
      | some t0 =>
          let r0 : StoredResult :=
            { run_id := inst.run_id, timestamp := none, plugin_name := none,
              execution_time := some ((now : Int) - (t0 : Int)),
              plugin_meta := some pname, payload := payload }
          let (lg2, c2, saved) := save_result lg c now now r0
          ({ inst0 with result := some saved, progress := 100,
                        status := PStatus.completed, running := false },
           lg2, c2)

/-- State of a NewPluginManager (src/core/new_plugin_manager.py): the
discovered catalog reduced to the availability flag consulted by
load_plugin, the loaded instances, their loggers, the active-runs table and
the uuid counter. -/
structure EngineState where
  pluginsAvail : List (String × Bool)
  instances : List (String × PluginInstance)
  loggers : List (String × LoggerState)
  active_runs : List (Nat × String)
  counter : Nat
  deriving DecidableEq

/-- NewPluginManager.load_plugin (src/core/new_plugin_manager.py lines
320-381): unknown or unavailable plugins load to none; an already loaded
instance is returned as is; otherwise a logger is created, start_run is
invoked once, and the fresh instance is cached. -/
def load_plugin (st : EngineState) (name : String) (t : Nat) :
    Option PluginInstance × EngineState :=
  match dictLookup name st.pluginsAvail with
  | none => (none, st)
  | some false => (none, st)
  | some true =>
      match dictLookup name st.instances with
      | some inst => (some inst, st)
      | none =>
          let (lg1, c1) := start_run (loggerInit name) st.counter t
          (some pluginInit,
           { st with instances := dictInsert st.instances name pluginInit,
                     loggers := dictInsert st.loggers name lg1,
                     counter := c1 })

/-- NewPluginManager.run_plugin (src/core/new_plugin_manager.py lines
383-422): loads the plugin, returns none while the instance is already
running, otherwise starts the asynchronous run and records it in
active_runs under the issued run identifier. -/
def run_plugin (st : EngineState) (name : String) (t : Nat) :
    Option Nat × EngineState :=
  let (pl, st1) := load_plugin st name t
  match pl with
  | none => (none, st1)
  | some inst =>
      if inst.running then (none, st1)
      else
        match async_run inst st1.counter with
        | (none, _, _) => (none, st1)
        | (some rid, inst2, c2) =>
            (some rid,
             { st1 with instances := dictInsert st1.instances name inst2,
                        active_runs := dictInsert st1.active_runs rid name,
                        counter := c2 })

/-- Completion of the worker thread started by run_plugin: the engine state
after PluginBase._run_wrapper returned for the named instance. -/
def engine_complete_run (st : EngineState) (name : String)
    (body : Except Nat Nat) (now : Nat) : EngineState :=
  match dictLookup name st.instances, dictLookup name st.loggers with
  | some inst, some lg =>
      let (inst2, lg2, c2) := run_wrapper inst lg st.counter name body now
      { st with instances := dictInsert st.instances name inst2,
                loggers := dictInsert st.loggers name lg2,
                counter := c2 }
  | _, _ => st

/-- PluginManager.get_plugin_result (src/core/plugin_manager.py lines
519-539): with a run identifier, delegate to the logger of the loaded
instance; without one, return the most recent in-memory result. -/
def get_plugin_result (st : EngineState) (name : String) (rid : Option Nat) :
    Option StoredResult :=
  match dictLookup name st.instances with
  | none => none
  | some inst =>
      match rid with
      | some r =>
          match dictLookup name st.loggers with
          | some lg => get_result lg r
          | none => none
      | none => inst.result

/-- Identifier under which save_result files a record: the current run id of
the logger when set, otherwise the fresh uuid it draws. -/
def savedRunId (lg : LoggerState) (c : Nat) : Nat :=
  match lg.current_run_id with
  | some i => i
  | none => c

/-- Outcome classification of one execute call of the Flask-side manager
(app/plugins/manager.py): the ValueError for an unknown plugin, the
TimeoutError after the 60 second deadline, or a re-raised body exception. -/
inductive ExecFailure
  | notFound
  | timeout
  | raised (msg : Nat)
  deriving DecidableEq

/-- Value returned by execute_plugin: the body result when it serializes to
JSON, or the warning-wrapped stringified fallback when it does not. -/
inductive PluginValue
  | value (serializable : Bool) (data : Nat)
  | wrapped (data : Nat)
  deriving DecidableEq

/-- One loaded plugin of the Flask-side manager: whether its module exposes
an execute function. -/
structure AppPlugin where
  hasExecute : Bool
  deriving DecidableEq

/-- Execution deadline of app/plugins/manager.py line 197: 60 seconds. -/
def EXECUTION_DEADLINE : Nat := 60

/-- PluginManager.execute_plugin (app/plugins/manager.py lines 160-215): the
body runs on a worker with future.result bounded by the 60 second deadline;
a body that has not finished by then raises TimeoutError, which the method
re-raises to the caller; a body exception is re-raised; a non-serializable
success value is downgraded to a warning-wrapped string. The body is
characterised by its duration and its outcome: a raised message or a
(serializable, data) pair. -/
def execute_plugin (plugins : List (String × AppPlugin)) (pid : String)
    (duration : Nat) (body : Except Nat (Bool × Nat)) : Except ExecFailure PluginValue :=
  match dictLookup pid plugins with
  | none => Except.error ExecFailure.notFound
  | some pl =>
      if pl.hasExecute = false then Except.error (ExecFailure.raised 0)
      else if EXECUTION_DEADLINE < duration then Except.error ExecFailure.timeout
      else
        match body with
        | Except.error e => Except.error (ExecFailure.raised e)
        | Except.ok (ser, d) =>
            if ser then Except.ok (PluginValue.value true d)
            else Except.ok (PluginValue.wrapped d)

/-- Manifest of a Flask-side plugin (app/plugins/manager.py): presence of
the four descriptor fields. -/
structure Manifest where
  mfname : Option String
  mfversion : Option String
  mfdescription : Option String
  mfauthor : Option String
  deriving DecidableEq

/-- PluginManager._validate_manifest (app/plugins/manager.py lines 102-117):
name, version and description are required; author is not checked. -/
def validate_manifest (m : Manifest) : Bool :=
  m.mfname.isSome && m.mfversion.isSome && m.mfdescription.isSome

/-- Metadata block of a folder-based plugin descriptor (config.json read by
NewPluginManager.discover_plugins). -/
structure NMeta where
  mname : Option String
  mversion : Option String
  mdescription : Option String
  mauthor : Option String
  deriving DecidableEq

/-- Result of opening and parsing config.json of one candidate folder:
either the raised exception message or the parsed metadata plus the
settings.enabled flag. -/
inductive ConfigRead
  | readError (msg : String)
  | readOk (metadata : NMeta) (enabledSetting : Option Bool)
  deriving DecidableEq

/-- One candidate subfolder of a plugin directory as seen by
discover_plugins: the filesystem facts the scan inspects. -/
structure Candidate where
  folderName : String
  isDir : Bool
  underscoreName : Bool
  hasPluginFile : Bool
  hasConfigFile : Bool
  configRead : ConfigRead
  classLoads : Bool
  deriving DecidableEq

/-- One catalog entry created by discover_plugins. -/
structure CatalogEntry where
  metadata : NMeta
  enabled : Bool
  available : Bool
  errorMsg : Option String
  deriving DecidableEq

/-- One scan step of NewPluginManager.discover_plugins (lines 62-164):
non-directories, underscore names and folders without plugin.py or
config.json are skipped; a config.json that fails to load registers an
unavailable fallback entry under the lowercased folder name with the error
stored; a parsed config with a missing or empty metadata name is skipped
with only a log warning; otherwise the candidate is registered, available
exactly when its plugin class loads. -/
def discover_step (catalog : List (String × CatalogEntry)) (c : Candidate) :
    List (String × CatalogEntry) :=
  if !c.isDir || c.underscoreName then catalog
  else if !c.hasPluginFile then catalog
  else if !c.hasConfigFile then catalog
  else
    match c.configRead with
    | ConfigRead.readError msg =>
        dictInsert catalog c.folderName.toLower
          { metadata := { mname := some c.folderName.toLower,
                          mdescription := some ("Plugin failed to load"),
                          mversion := some ("Unknown"),
                          mauthor := some ("Unknown") },
            enabled := false, available := false, errorMsg := some msg }
    | ConfigRead.readOk md en =>
        match md.mname with
        | none => catalog
        | some n =>
            if n = "" then catalog
            else if c.classLoads then
              dictInsert catalog n
                { metadata := md, enabled := en.getD true,
                  available := true, errorMsg := none }
            else
              dictInsert catalog n
                { metadata := md, enabled := false, available := false,
                  errorMsg := some ("Failed to load plugin class") }

/-- NewPluginManager.discover_plugins: scan every candidate in order into a
fresh catalog. -/
def discover_plugins (cands : List Candidate) : List (String × CatalogEntry) :=
  cands.foldl discover_step []

/-- Network events of NetworkMonitor: eth_connect and eth_disconnect. -/
inductive NetEvent
  | connect
  | disconnect
  deriving DecidableEq

/-- Event sequence emitted by the polling loop NetworkMonitor._monitor_poll
(src/core/network_monitor.py lines 109-134) over a sequence of carrier
observations: an event fires exactly when the observation differs from the
last recorded state, which then becomes the new last state. The monitor
starts with last_state false (line 65 of __init__). -/
def poll_events (last : Bool) : List Bool → List NetEvent
  | [] => []
  | obs :: rest =>
      if obs = last then poll_events last rest
      else (if obs then NetEvent.connect else NetEvent.disconnect) :: poll_events obs rest

/-- Handler registry of NetworkMonitor: event name to the registration-order
list of handlers, each handler modelled by a Nat identity. -/
structure MonitorState where
  event_handlers : List (NetEvent × List Nat)
  deriving DecidableEq

/-- NetworkMonitor.register_event_handler (src/core/network_monitor.py lines
311-328): appends the handler when absent and returns true; a handler
already registered for the event leaves the registry unchanged and returns
false. -/
def register_event_handler (st : MonitorState) (ev : NetEvent) (h : Nat) :
    Bool × MonitorState :=
  let hs := (dictLookup ev st.event_handlers).getD []
  if h ∈ hs then (false, st)
  else (true, { st with event_handlers := dictInsert st.event_handlers ev (hs ++ [h]) })

/-- Dispatch loop of NetworkMonitor._trigger_event (lines 346-363): every
handler is called in list order inside its own try block; a handler whose
call raises (behavior false) is logged and the loop continues. Returns the
invoked handlers in call order and the handlers whose error was logged. -/
def dispatch_handlers (behavior : Nat → Bool) : List Nat → List Nat × List Nat
  | [] => ([], [])
  | h :: rest =>
      let r := dispatch_handlers behavior rest
      (h :: r.1, if behavior h then r.2 else h :: r.2)

/-- NetworkMonitor._trigger_event: dispatch to every handler registered for
the event, in registration order. -/
def trigger_event (st : MonitorState) (ev : NetEvent) (behavior : Nat → Bool) :
    List Nat × List Nat :=
  dispatch_handlers behavior ((dictLookup ev st.event_handlers).getD [])

/-- Terminal outcome of one member run inside a sequence, as seen by the
callbacks of PluginManager.run_sequence: _run_wrapper invokes the completion
callback only on success; a failed body never does. -/
inductive ROutcome
  | success
  | failure
  deriving DecidableEq

/-- Events of the sequential execution chain built by
PluginManager._run_sequential (src/core/plugin_manager.py lines 765-788). -/
inductive SeqEv
  | start (p : String)
  | finish (p : String)
  | callbackFired (p : String)
  deriving DecidableEq

/-- Trace of _run_sequential over the parsed sequence with the given member
outcomes: the current member is started; when its body finishes with
success, _run_wrapper fires seq_callback, which invokes the completion
callback and only then starts the next member; when the body fails, no
callback fires and the chain stops. -/
def run_sequential_trace : List (String × ROutcome) → List SeqEv
  | [] => []
  | (p, ROutcome.success) :: rest =>
      SeqEv.start p :: SeqEv.finish p :: SeqEv.callbackFired p ::
        run_sequential_trace rest
  | (p, ROutcome.failure) :: _ => [SeqEv.start p, SeqEv.finish p]

/-- Completion event of one member run in parallel mode: its name and
whether its body succeeded. -/
inductive CompletionEv
  | completed (name : String) (o : ROutcome)
  deriving DecidableEq

/-- Keyed dict insertion of plugin_callback: results dict assignment by
plugin name, a repeated name overwrites and does not grow the dict. -/
def insertName (names : List String) (n : String) : List String :=
  if n ∈ names then names else names ++ [n]

/-- Aggregation loop of the parallel branch of PluginManager.run_sequence
(lines 711-763): completion events are processed in arrival order; only a
successful body reaches plugin_callback, which files the result under the
plugin name and invokes the aggregate callback whenever the results dict
size equals the sequence length. Returns how often the aggregate callback
was invoked. -/
def parallel_agg : Nat → List CompletionEv → List String → Nat → Nat
  | _, [], _, agg => agg
  | total, CompletionEv.completed n o :: rest, names, agg =>
      match o with
      | ROutcome.failure => parallel_agg total rest names agg
      | ROutcome.success =>
          let names2 := insertName names n
          let agg2 := if names2.length = total then agg + 1 else agg
          parallel_agg total rest names2 agg2

/-- Parallel run_sequence over the given members with the given completion
events: number of aggregate-callback invocations. -/
def parallel_run (members : List String) (evs : List CompletionEv) : Nat :=
  parallel_agg members.length evs [] 0

/-- Engine state for the C2 scenario: one available plugin p whose instance
is loaded and idle. -/
def c2st : EngineState :=
  { pluginsAvail := [(("p" : String), true)],
    instances := [(("p" : String), pluginInit)],
    loggers := [], active_runs := [], counter := 0 }

/-- Fresh engine state for the C3 scenario: one available plugin p, nothing
loaded yet, uuid counter at 0. -/
def c3st0 : EngineState :=
  { pluginsAvail := [(("p" : String), true)],
    instances := [], loggers := [], active_runs := [], counter := 0 }

/-- First run_plugin call of the C3 scenario: loading draws uuid 0 for the
logger via start_run, async_run draws uuid 1 as the issued run identifier. -/
def c3run : Option Nat × EngineState := run_plugin c3st0 ("p") 10

/-- C3 scenario after the worker completed successfully with payload 7. -/
def c3st2 : EngineState := engine_complete_run c3run.2 ("p") (Except.ok 7) 20

/-- Fresh engine state for the C1 core-engine counterexample: one available
plugin p, nothing loaded, uuid counter at 0. -/
def c1st0 : EngineState :=
  { pluginsAvail := [(("p" : String), true)],
    instances := [], loggers := [], active_runs := [], counter := 0 }

/-- C1 counterexample run: started at time 10 (start_run records
run_start_time 10, async_run issues run identifier 1). -/
def c1run : Option Nat × EngineState := run_plugin c1st0 ("p") 10

/-- C1 counterexample: the worker body only finishes at time 100, an elapsed
time of 90 seconds, far beyond the 60 second deadline; the core engine has
no deadline check, so the wrapper simply completes the run. -/
def c1st2 : EngineState := engine_complete_run c1run.2 ("p") (Except.ok 7) 100

/-- Instance freshly started for the C4 scenario. -/
def c4inst1 : PluginInstance := (async_run pluginInit 0).2.1

/-- C4 scenario: the plugin reports progress 50 during the run. -/
def c4inst2 : PluginInstance := update_progress c4inst1 50 none

/-- C4 scenario: the plugin then reports progress 30 in the same run. -/
def c4inst3 : PluginInstance := update_progress c4inst2 30 none

/-- Descriptor metadata of the C6 counterexample candidate: a name but no
version, description or author. -/
def c6meta : NMeta :=
  { mname := some ("pinger"), mversion := none, mdescription := none, mauthor := none }

/-- C6 counterexample candidate: a well-formed plugin folder whose
config.json parses and whose class loads, but whose metadata is missing the
version, description and author fields. -/
def c6cand : Candidate :=
  { folderName := "pinger", isDir := true, underscoreName := false,
    hasPluginFile := true, hasConfigFile := true,
    configRead := ConfigRead.readOk c6meta (some true), classLoads := true }

/-- Catalog entry discover_plugins registers for the C6 counterexample
candidate. -/
def c6entry : CatalogEntry :=
  { metadata := c6meta, enabled := true, available := true, errorMsg := none }

/-- Record used by the C7 witness before save_result adds its metadata. -/
def c7rec : StoredResult :=
  { run_id := none, timestamp := none, plugin_name := none,
    execution_time := none, plugin_meta := none, payload := 42 }

/-- Monitor state for the C10 witness: no handlers registered yet. -/
def c10st : MonitorState := { event_handlers := [] }

/-- Members of the C8 parallel counterexample. -/
def c8members : List String := [("a" : String), ("b")]

/-- Completion events of the C8 parallel counterexample: member a fails,
member b succeeds, so every member reached a terminal outcome. -/
def c8evs : List CompletionEv :=
  [CompletionEv.completed ("a") ROutcome.failure,
   CompletionEv.completed ("b") ROutcome.success]

/-- Helper: dictionary lookup after inserting the same key finds the
inserted value. -/
theorem dictLookup_dictInsert {α β : Type} [DecidableEq α]
    (l : List (α × β)) (k : α) (v : β) :
    dictLookup k (dictInsert l k v) = some v := by
  induction l with
  | nil => simp [dictInsert, dictLookup]
  | cons p rest ih =>
      obtain ⟨k0, v0⟩ := p
      by_cases h : k0 = k
      · simp [dictInsert, dictLookup, h]
      · simp [dictInsert, dictLookup, h, ih]

/-- Helper: the dispatch loop of _trigger_event invokes exactly the listed
handlers in order and logs exactly the raising ones. -/
theorem dispatch_handlers_spec (b : Nat → Bool) (l : List Nat) :
    (dispatch_handlers b l).1 = l ∧
    (dispatch_handlers b l).2 = l.filter (fun h => !b h) := by
  induction l with
  | nil => simp [dispatch_handlers]
  | cons h rest ih =>
      cases hb : b h <;>
        simp [dispatch_handlers, ih.1, ih.2, List.filter_cons, hb]

/-- Helper: first component of dispatch_handlers_spec. -/
theorem dispatch_handlers_fst (b : Nat → Bool) (l : List Nat) :
    (dispatch_handlers b l).1 = l :=
  (dispatch_handlers_spec b l).1

/-- C1 counterexample: on the core engine, a run started at time 10 whose
body only finishes at time 100, an elapsed time of 90 seconds beyond the 60
second deadline, is recorded as a completed success: the instance reaches
completed at progress 100, no error or timeout document is written, and the
persisted record is a success record carrying execution_time 90 and the
body payload, so an over-deadline run is recorded as success and no timeout
outcome exists on this path. -/
theorem c1_counterexample :
    c1run.1 = some 1 ∧
    EXECUTION_DEADLINE < 100 - 10 ∧
    (dictLookup ("p") c1st2.instances).map PluginInstance.status =
      some PStatus.completed ∧
    (dictLookup ("p") c1st2.instances).map PluginInstance.running = some false ∧
    (dictLookup ("p") c1st2.instances).map PluginInstance.progress = some 100 ∧
    (dictLookup ("p") c1st2.loggers).map LoggerState.errors = some [] ∧
    (get_plugin_result c1st2 ("p") (some 0)).map StoredResult.execution_time =
      some (some (90 : Int)) ∧
    (get_plugin_result c1st2 ("p") (some 0)).map StoredResult.payload = some 7 := by
  decide

/-- C1 (amended): only the Flask-side execute_plugin enforces the 60 second
execution deadline: there, a run whose body does not complete within it
yields the timeout error to the caller, re-raised rather than dropped, and
never a success value, whatever the body would have returned. The core
engine (PluginBase.async_run and _run_wrapper) enforces no deadline at all:
a successful body is marked completed at progress 100 and persisted as a
success record, with the errors store untouched, however far the completion
time lies past the deadline. -/
theorem c1_timeout_amended :
    (∀ (plugins : List (String × AppPlugin)) (pid : String) (pl : AppPlugin)
       (duration : Nat) (body : Except Nat (Bool × Nat)),
       dictLookup pid plugins = some pl → pl.hasExecute = true →
       EXECUTION_DEADLINE < duration →
       execute_plugin plugins pid duration body = Except.error ExecFailure.timeout) ∧
    (∀ (inst : PluginInstance) (lg : LoggerState) (c : Nat) (pname : String)
       (payload now t0 : Nat),
       lg.run_start_time = some t0 →
       EXECUTION_DEADLINE < now - t0 →
       ((run_wrapper inst lg c pname (Except.ok payload) now).1).status =
         PStatus.completed ∧
       ((run_wrapper inst lg c pname (Except.ok payload) now).1).running = false ∧
       ((run_wrapper inst lg c pname (Except.ok payload) now).1).progress = 100 ∧
       ((run_wrapper inst lg c pname (Except.ok payload) now).1).result.isSome = true ∧
       ((run_wrapper inst lg c pname (Except.ok payload) now).2.1).errors = lg.errors) := by
  refine ⟨?_, ?_⟩
  · intro plugins pid pl duration body hp hx hd
    simp [execute_plugin, hp, hx, hd]
  · intro inst lg c pname payload now t0 h1 _h2
    refine ⟨?_, ?_, ?_, ?_, ?_⟩ <;>
      simp [run_wrapper, h1, save_result, update_result_index, cleanup_old_results]

/-- C1 witness: a registered Flask-side plugin whose body takes 61 seconds
yields the timeout error, and a core-engine run started at time 10 whose
successful body finishes at time 100 is completed and persisted with the
errors store untouched. -/
theorem c1_amended_witness :
    (dictLookup ("p") [(("p" : String), AppPlugin.mk true)] = some (AppPlugin.mk true) ∧
     (AppPlugin.mk true).hasExecute = true ∧
     EXECUTION_DEADLINE < 61 ∧
     execute_plugin [(("p" : String), AppPlugin.mk true)] ("p") 61 (Except.ok (true, 5)) =
       Except.error ExecFailure.timeout) ∧
    ((start_run (loggerInit ("p")) 0 10).1.run_start_time = some 10 ∧
     EXECUTION_DEADLINE < 100 - 10 ∧
     (((run_wrapper pluginInit (start_run (loggerInit ("p")) 0 10).1 1 ("p")
          (Except.ok 7) 100).1).status = PStatus.completed ∧
      ((run_wrapper pluginInit (start_run (loggerInit ("p")) 0 10).1 1 ("p")
          (Except.ok 7) 100).1).running = false ∧
      ((run_wrapper pluginInit (start_run (loggerInit ("p")) 0 10).1 1 ("p")
          (Except.ok 7) 100).1).progress = 100 ∧
      ((run_wrapper pluginInit (start_run (loggerInit ("p")) 0 10).1 1 ("p")
          (Except.ok 7) 100).1).result.isSome = true ∧
      ((run_wrapper pluginInit (start_run (loggerInit ("p")) 0 10).1 1 ("p")
          (Except.ok 7) 100).2.1).errors = (start_run (loggerInit ("p")) 0 10).1.errors)) :=
  ⟨⟨by decide, by decide, by decide,
    c1_timeout_amended.1 _ _ (AppPlugin.mk true) _ _ (by decide) (by decide) (by decide)⟩,
   ⟨by decide, by decide,
    c1_timeout_amended.2 pluginInit (start_run (loggerInit ("p")) 0 10).1 1 ("p") 7 100 10
      (by decide) (by decide)⟩⟩

/-- C2: while the prior run of an identifier is not yet terminal, a second
run_plugin call starts no new run and reports the failure to the second
caller (None, the AlreadyRunning report of src/core/new_plugin_manager.py
lines 400-403), leaving the engine state completely unchanged. -/
theorem c2_already_running (st : EngineState) (name : String)
    (inst : PluginInstance) (t t2 : Nat)
    (hav : dictLookup name st.pluginsAvail = some true)
    (hinst : dictLookup name st.instances = some inst)
    (hrun : inst.running = false) :
    (run_plugin st name t).1 = some st.counter ∧
    (dictLookup name (run_plugin st name t).2.instances).map PluginInstance.running =
      some true ∧
    run_plugin (run_plugin st name t).2 name t2 = (none, (run_plugin st name t).2) := by
  have hload : load_plugin st name t = (some inst, st) := by
    simp [load_plugin, hav, hinst]
  have hrunp : run_plugin st name t =
      (some st.counter,
       { st with
           instances := dictInsert st.instances name
             { inst with running := true, status := PStatus.running,
                         progress := 0, run_id := some st.counter },
           active_runs := dictInsert st.active_runs st.counter name,
           counter := st.counter + 1 }) := by
    simp [run_plugin, hload, async_run, hrun]
  refine ⟨by rw [hrunp], ?_, ?_⟩
  · rw [hrunp]
    simp [dictLookup_dictInsert]
  · rw [hrunp]
    simp [run_plugin, load_plugin, hav, dictLookup_dictInsert]

/-- C2 witness: with the idle loaded plugin p, the first call issues run
identifier 0, the instance is then running, and the second call yields the
failure report with the state unchanged. -/
theorem c2_witness :
    dictLookup ("p") c2st.pluginsAvail = some true ∧
    dictLookup ("p") c2st.instances = some pluginInit ∧
    pluginInit.running = false ∧
    ((run_plugin c2st ("p") 0).1 = some c2st.counter ∧
     (dictLookup ("p") (run_plugin c2st ("p") 0).2.instances).map PluginInstance.running =
       some true ∧
     run_plugin (run_plugin c2st ("p") 0).2 ("p") 1 = (none, (run_plugin c2st ("p") 0).2)) :=
  ⟨by decide, by decide, by decide,
   c2_already_running c2st ("p") pluginInit 0 1 (by decide) (by decide) (by decide)⟩

/-- C4 (amended): the progress value written by update_progress always lies
in 0..100, and async_run resets progress to 0 at the start of the next run;
within one run, however, progress follows whatever clamped values the plugin
reports and is not forced to be non-decreasing. -/
theorem c4_progress_amended (inst : PluginInstance) (p : Int) (s : Option PStatus)
    (c : Nat) (h : inst.running = false) :
    0 ≤ (update_progress inst p s).progress ∧
    (update_progress inst p s).progress ≤ 100 ∧
    ((async_run inst c).2.1).progress = 0 := by
  refine ⟨?_, ?_, ?_⟩
  · exact le_min (le_max_left 0 p) (by decide)
  · exact min_le_right (max 0 p) 100
  · simp [async_run, h]

/-- C4 witness: an out-of-range report of 150 on the idle initial instance
is clamped into range and a fresh run starts at progress 0. -/
theorem c4_witness :
    pluginInit.running = false ∧
    (0 ≤ (update_progress pluginInit 150 none).progress ∧
     (update_progress pluginInit 150 none).progress ≤ 100 ∧
     ((async_run pluginInit 3).2.1).progress = 0) :=
  ⟨by decide, c4_progress_amended pluginInit 150 none 3 (by decide)⟩

/-- C4 counterexample: within a single run (the instance stays running under
the same run identifier) the reported progress drops from 50 to 30, so the
progress of a run is not monotonically non-decreasing. -/
theorem c4_counterexample :
    c4inst2.running = true ∧ c4inst3.running = true ∧
    c4inst3.run_id = c4inst2.run_id ∧
    c4inst2.progress = 50 ∧ c4inst3.progress = 30 ∧
    c4inst3.progress < c4inst2.progress := by decide

/-- C5: starting from the initial last state false, the observation sequence
true,true,false,false,true makes the polling monitor emit exactly connect,
disconnect, connect; a repeated identical observation emits nothing, and a
changed observation emits exactly one event, connect when the carrier
appeared and disconnect when it vanished. -/
theorem c5_edge_detection :
    poll_events false [true, true, false, false, true] =
      [NetEvent.connect, NetEvent.disconnect, NetEvent.connect] ∧
    (∀ (last : Bool) (rest : List Bool),
       poll_events last (last :: rest) = poll_events last rest) ∧
    (∀ (last : Bool) (rest : List Bool),
       poll_events last ((!last) :: rest) =
         (if !last then NetEvent.connect else NetEvent.disconnect) ::
           poll_events (!last) rest) := by
  refine ⟨by decide, ?_, ?_⟩
  · intro last rest
    simp [poll_events]
  · intro last rest
    cases last <;> simp [poll_events]

/-- C9: trigger_event invokes every handler registered for the event, in
registration order, whatever subset of handlers raises; the raising handlers
are exactly the logged ones, and dispatch is a total function of the
registry, so a handler error never prevents later handlers from running nor
crashes the monitor loop. -/
theorem c9_handlers_all_invoked (st : MonitorState) (ev : NetEvent)
    (behavior : Nat → Bool) :
    (trigger_event st ev behavior).1 = (dictLookup ev st.event_handlers).getD [] ∧
    (trigger_event st ev behavior).2 =
      ((dictLookup ev st.event_handlers).getD []).filter (fun h => !behavior h) :=
  dispatch_handlers_spec behavior ((dictLookup ev st.event_handlers).getD [])

/-- C10: registering a handler already registered for an event returns false
and leaves the registry unchanged, and a duplicate-free handler list stays
duplicate-free, so each distinct handler is invoked exactly once per
triggered event. -/
theorem c10_register_idempotent (st : MonitorState) (ev : NetEvent) (h : Nat)
    (behavior : Nat → Bool)
    (hnd : ((dictLookup ev st.event_handlers).getD []).Nodup) :
    (register_event_handler (register_event_handler st ev h).2 ev h).1 = false ∧
    (register_event_handler (register_event_handler st ev h).2 ev h).2 =
      (register_event_handler st ev h).2 ∧
    ((trigger_event (register_event_handler st ev h).2 ev behavior).1).count h = 1 := by
  by_cases hmem : h ∈ (dictLookup ev st.event_handlers).getD []
  · have h1 : register_event_handler st ev h = (false, st) := by
      simp [register_event_handler, hmem]
    have hcount : ((dictLookup ev st.event_handlers).getD []).count h = 1 :=
      List.count_eq_one_of_mem hnd hmem
    refine ⟨by simp [h1, register_event_handler, hmem], by simp [h1], ?_⟩
    simp [h1, trigger_event, dispatch_handlers_fst, hcount]
  · have hcount0 : ((dictLookup ev st.event_handlers).getD []).count h = 0 :=
      List.count_eq_zero_of_not_mem hmem
    refine ⟨?_, ?_, ?_⟩
    · simp [register_event_handler, hmem, dictLookup_dictInsert]
    · simp [register_event_handler, hmem, dictLookup_dictInsert]
    · simp [register_event_handler, hmem, trigger_event, dictLookup_dictInsert,
            dispatch_handlers_fst, List.count_append, hcount0]

/-- C10 witness: on an empty registry, registering handler 7 twice for
connect yields false the second time with the registry unchanged, and a
trigger invokes handler 7 exactly once. -/
theorem c10_witness :
    ((dictLookup NetEvent.connect c10st.event_handlers).getD []).Nodup ∧
    ((register_event_handler (register_event_handler c10st NetEvent.connect 7).2
        NetEvent.connect 7).1 = false ∧
     (register_event_handler (register_event_handler c10st NetEvent.connect 7).2
        NetEvent.connect 7).2 =
       (register_event_handler c10st NetEvent.connect 7).2 ∧
     ((trigger_event (register_event_handler c10st NetEvent.connect 7).2
        NetEvent.connect (fun _ => true)).1).count 7 = 1) :=
  ⟨by decide, c10_register_idempotent c10st NetEvent.connect 7 (fun _ => true) (by decide)⟩

/-- C3 (code bug): on a fresh engine with one available plugin p, run_plugin
issues run identifier 1 to the caller; the worker completes successfully and
the instance reaches the terminal completed state; yet save_result has
overwritten the run_id that _run_wrapper stamped on the record with the
logger current_run_id 0 drawn by start_run at load time, so the record is
persisted and indexed under 0, get_plugin_result with the issued identifier
1 returns nothing, and only the never-issued identifier 0 retrieves the
record. -/
theorem c3_run_id_mismatch :
    c3run.1 = some 1 ∧
    (dictLookup ("p") c3st2.instances).map PluginInstance.status =
      some PStatus.completed ∧
    (dictLookup ("p") c3st2.instances).map PluginInstance.running = some false ∧
    get_plugin_result c3st2 ("p") (some 1) = none ∧
    (get_plugin_result c3st2 ("p") (some 0)).map StoredResult.payload = some 7 ∧
    (get_plugin_result c3st2 ("p") (some 0)).map StoredResult.run_id =
      some (some 0) := by decide

/-- Helper: appending an entry strictly newer than every indexed one and
re-sorting puts it at the head. -/
theorem sortDesc_append_newest (l : List IndexEntry) (e : IndexEntry)
    (h : ∀ f ∈ l, entryKey f < entryKey e) :
    sortDesc (l ++ [e]) = e :: sortDesc l := by
  induction l with
  | nil => simp [sortDesc, insertDesc]
  | cons x rest ih =>
      have hx : entryKey x < entryKey e := h x (by simp)
      have hrest : ∀ f ∈ rest, entryKey f < entryKey e := fun f hf => h f (by simp [hf])
      show insertDesc x (sortDesc (rest ++ [e])) = e :: insertDesc x (sortDesc rest)
      rw [ih hrest]
      simp only [insertDesc]
      rw [if_neg (by omega)]

/-- Helper: looking up the key of a freshly appended binding succeeds when no
earlier binding uses that key. -/
theorem dictLookup_append_last {β : Type} (l : List (Nat × β)) (k : Nat) (v : β)
    (h : ∀ p ∈ l, p.1 ≠ k) :
    dictLookup k (l ++ [(k, v)]) = some v := by
  induction l with
  | nil => simp [dictLookup]
  | cons p rest ih =>
      obtain ⟨k0, v0⟩ := p
      have hk : k0 ≠ k := h (k0, v0) (by simp)
      simp only [List.cons_append, dictLookup, if_neg hk]
      exact ih (fun q hq => h q (by simp [hq]))

/-- C7: a run record saved through save_result and fetched back through
get_result under the identifier it was saved with yields field-for-field the
exact record that was written, provided the new timestamp is newer than
every indexed one and every existing file path is older than the next
allocation; both hold along any real execution, where wall-clock timestamps
and path allocations only grow, and they keep the new record out of reach of
the size-cap eviction. -/
theorem c7_save_get_roundtrip (lg : LoggerState) (c ts now : Nat) (r : StoredResult)
    (hts : ∀ e ∈ lg.index, entryKey e < ts)
    (hfiles : ∀ p ∈ lg.files, p.1 < lg.next_path) :
    (save_result lg c ts now r).2.2.run_id = some (savedRunId lg c) ∧
    get_result (save_result lg c ts now r).1 (savedRunId lg c) =
      some (save_result lg c ts now r).2.2 := by
  have hklen : (lg.files.length + 1) - MAX_RESULTS_STORED ≤ lg.files.length := by
    show lg.files.length + 1 - 100 ≤ lg.files.length
    omega
  have hdropped : ∀ p ∈ lg.files.drop ((lg.files.length + 1) - MAX_RESULTS_STORED),
      p.1 ≠ lg.next_path := by
    intro p hp
    have := hfiles p (List.mem_of_mem_drop hp)
    omega
  cases hcur : lg.current_run_id with
  | none =>
      constructor
      · simp [save_result, savedRunId, hcur]
      · simp only [save_result, savedRunId, hcur, update_result_index,
                   cleanup_old_results, get_result]
        rw [sortDesc_append_newest lg.index _ (by intro f hf; simpa [entryKey] using hts f hf)]
        rw [show MAX_RESULTS_STORED = 99 + 1 from rfl, List.take_succ_cons]
        simp only [result_scan, List.length_append, List.length_cons, List.length_nil,
                   if_pos rfl]
        rw [List.drop_append_of_le_length (by omega)]
        rw [dictLookup_append_last _ _ _ (by simpa [MAX_RESULTS_STORED] using hdropped)]
        simp
  | some i =>
      constructor
      · simp [save_result, savedRunId, hcur]
      · simp only [save_result, savedRunId, hcur, update_result_index,
                   cleanup_old_results, get_result]
        rw [sortDesc_append_newest lg.index _ (by intro f hf; simpa [entryKey] using hts f hf)]
        rw [show MAX_RESULTS_STORED = 99 + 1 from rfl, List.take_succ_cons]
        simp only [result_scan, List.length_append, List.length_cons, List.length_nil,
                   if_pos rfl]
        rw [List.drop_append_of_le_length (by omega)]
        rw [dictLookup_append_last _ _ _ (by simpa [MAX_RESULTS_STORED] using hdropped)]
        simp

/-- C7 witness: saving the payload-42 record into a fresh logger for plugin
p and fetching it back under the saved identifier returns the written record
exactly. -/
theorem c7_witness :
    (∀ e ∈ (loggerInit ("p")).index, entryKey e < 10) ∧
    (∀ p ∈ (loggerInit ("p")).files, p.1 < (loggerInit ("p")).next_path) ∧
    ((save_result (loggerInit ("p")) 5 10 10 c7rec).2.2.run_id =
       some (savedRunId (loggerInit ("p")) 5) ∧
     get_result (save_result (loggerInit ("p")) 5 10 10 c7rec).1
         (savedRunId (loggerInit ("p")) 5) =
       some (save_result (loggerInit ("p")) 5 10 10 c7rec).2.2) :=
  ⟨by simp [loggerInit], by simp [loggerInit],
   c7_save_get_roundtrip (loggerInit ("p")) 5 10 10 c7rec
     (by simp [loggerInit]) (by simp [loggerInit])⟩

/-- Helper: a pair found after a dictionary insertion is the inserted
binding or one of the old bindings. -/
theorem mem_dictInsert {α β : Type} [DecidableEq α] (l : List (α × β)) (k : α) (v : β)
    (p : α × β) (hp : p ∈ dictInsert l k v) : p = (k, v) ∨ p ∈ l := by
  induction l with
  | nil => simpa [dictInsert] using hp
  | cons q rest ih =>
      obtain ⟨k0, v0⟩ := q
      by_cases h : k0 = k
      · simp only [dictInsert, if_pos h, List.mem_cons] at hp
        rcases hp with h1 | h1
        · exact Or.inl h1
        · exact Or.inr (List.mem_cons_of_mem _ h1)
      · simp only [dictInsert, if_neg h, List.mem_cons] at hp
        rcases hp with h1 | h1
        · exact Or.inr (by simp [h1])
        · rcases ih h1 with h2 | h2
          · exact Or.inl h2
          · exact Or.inr (List.mem_cons_of_mem _ h2)

/-- Helper: one discovery step preserves the property that every catalog
entry with available true carries a present, nonempty metadata name and no
stored error. -/
theorem discover_step_preserves (acc : List (String × CatalogEntry)) (c : Candidate)
    (hacc : ∀ q ∈ acc, q.2.available = true →
      q.2.metadata.mname.getD ("") ≠ "" ∧ q.2.errorMsg = none) :
    ∀ q ∈ discover_step acc c, q.2.available = true →
      q.2.metadata.mname.getD ("") ≠ "" ∧ q.2.errorMsg = none := by
  intro q hq
  simp only [discover_step] at hq
  split at hq
  · exact hacc q hq
  · split at hq
    · exact hacc q hq
    · split at hq
      · exact hacc q hq
      · split at hq
        · next msg =>
            rcases mem_dictInsert _ _ _ _ hq with h1 | h1
            · intro hav
              rw [h1] at hav
              simp at hav
            · exact hacc q h1
        · next md en =>
            split at hq
            · exact hacc q hq
            · next n hn =>
                split at hq
                · exact hacc q hq
                · split at hq
                  · rcases mem_dictInsert _ _ _ _ hq with h1 | h1
                    · intro _
                      subst h1
                      refine ⟨?_, rfl⟩
                      simp only [hn, Option.getD_some]
                      assumption
                    · exact hacc q h1
                  · rcases mem_dictInsert _ _ _ _ hq with h1 | h1
                    · intro hav
                      rw [h1] at hav
                      simp at hav
                    · exact hacc q h1

/-- Helper: the catalog accumulated by the discovery fold keeps the
available-implies-named property. -/
theorem discover_foldl_avail (cs : List Candidate) :
    ∀ acc : List (String × CatalogEntry),
      (∀ q ∈ acc, q.2.available = true →
        q.2.metadata.mname.getD ("") ≠ "" ∧ q.2.errorMsg = none) →
      ∀ q ∈ List.foldl discover_step acc cs, q.2.available = true →
        q.2.metadata.mname.getD ("") ≠ "" ∧ q.2.errorMsg = none := by
  induction cs with
  | nil => intro acc hacc q hq; exact hacc q (by simpa using hq)
  | cons c rest ih =>
      intro acc hacc q hq
      exact ih (discover_step acc c) (discover_step_preserves acc c hacc) q hq

/-- C6 counterexample: a catalog scan over one candidate whose descriptor
has a name but no version, description or author registers it with available
true, contradicting the claim that a descriptor missing a required field is
never registered as available; the Flask-side validator likewise accepts a
manifest missing the author field. -/
theorem c6_counterexample :
    discover_plugins [c6cand] = [(("pinger" : String), c6entry)] ∧
    c6entry.available = true ∧
    c6entry.metadata.mversion = none ∧
    c6entry.metadata.mdescription = none ∧
    c6entry.metadata.mauthor = none ∧
    validate_manifest
      { mfname := some ("x"), mfversion := some ("1"),
        mfdescription := some ("d"), mfauthor := none } = true := by decide

/-- C6 (amended): the folder-based scan requires only the metadata name:
every catalog entry registered with available true carries a present,
nonempty name and no stored error, while version, description and author are
not checked; a candidate whose config.json fails to parse is registered
under the lowercased folder name as unavailable with the error stored; and a
candidate whose parsed metadata lacks a name receives no catalog entry at
all, being skipped with only a log warning. -/
theorem c6_descriptor_amended :
    (∀ (cands : List Candidate) (k : String) (e : CatalogEntry),
       (k, e) ∈ discover_plugins cands → e.available = true →
       e.metadata.mname.getD ("") ≠ "" ∧ e.errorMsg = none) ∧
    (∀ (c : Candidate) (msg : String),
       c.isDir = true → c.underscoreName = false → c.hasPluginFile = true →
       c.hasConfigFile = true → c.configRead = ConfigRead.readError msg →
       discover_plugins [c] =
         [(c.folderName.toLower,
           { metadata := { mname := some c.folderName.toLower,
                           mdescription := some ("Plugin failed to load"),
                           mversion := some ("Unknown"),
                           mauthor := some ("Unknown") },
             enabled := false, available := false, errorMsg := some msg })]) ∧
    (∀ (c : Candidate) (md : NMeta) (en : Option Bool),
       c.isDir = true → c.underscoreName = false → c.hasPluginFile = true →
       c.hasConfigFile = true → c.configRead = ConfigRead.readOk md en →
       md.mname = none → discover_plugins [c] = []) := by
  refine ⟨?_, ?_, ?_⟩
  · intro cands k e hmem hav
    exact discover_foldl_avail cands [] (by simp) (k, e) hmem hav
  · intro c msg h1 h2 h3 h4 h5
    simp [discover_plugins, discover_step, h1, h2, h3, h4, h5, dictInsert]
  · intro c md en h1 h2 h3 h4 h5 h6
    simp [discover_plugins, discover_step, h1, h2, h3, h4, h5, h6]

/-- C6 witness for the amended statement: the counterexample candidate is
registered available, and the amended property holds of its entry. -/
theorem c6_amended_witness :
    (("pinger", c6entry) ∈ discover_plugins [c6cand]) ∧
    (c6entry.available = true) ∧
    (c6entry.metadata.mname.getD ("") ≠ "" ∧ c6entry.errorMsg = none) :=
  ⟨by decide, by decide,
   c6_descriptor_amended.1 [c6cand] ("pinger") c6entry (by decide) (by decide)⟩

/-- Helper: insertName only adds the given name. -/
theorem mem_insertName (names : List String) (n x : String)
    (hx : x ∈ insertName names n) : x ∈ names ∨ x = n := by
  unfold insertName at hx
  split at hx
  · exact Or.inl hx
  · simpa using hx

/-- Helper: insertName keeps the results dict keys duplicate free. -/
theorem insertName_nodup (names : List String) (n : String) (h : names.Nodup) :
    (insertName names n).Nodup := by
  unfold insertName
  split
  · exact h
  · next hn => simp [List.nodup_append, h, hn]

/-- Helper: when the aggregate counter grew, the results dict reached the
full sequence length at some point, and every name it then held came from
the starting dict or from a successful completion event. -/
theorem parallel_agg_fire (total : Nat) (evs : List CompletionEv) :
    ∀ (names : List String) (agg : Nat), names.Nodup →
      agg < parallel_agg total evs names agg →
      ∃ names2 : List String, names2.Nodup ∧ names2.length = total ∧
        ∀ x ∈ names2, x ∈ names ∨ CompletionEv.completed x ROutcome.success ∈ evs := by
  induction evs with
  | nil =>
      intro names agg _ h
      simp [parallel_agg] at h
  | cons ev rest ih =>
      intro names agg hnd h
      obtain ⟨n, o⟩ := ev
      cases o with
      | failure =>
          simp only [parallel_agg] at h
          obtain ⟨ns, h1, h2, h3⟩ := ih names agg hnd h
          exact ⟨ns, h1, h2, fun x hx =>
            (h3 x hx).imp id (fun hs => List.mem_cons_of_mem _ hs)⟩
      | success =>
          simp only [parallel_agg] at h
          by_cases hl : (insertName names n).length = total
          · refine ⟨insertName names n, insertName_nodup names n hnd, hl, ?_⟩
            intro x hx
            rcases mem_insertName names n x hx with h1 | h1
            · exact Or.inl h1
            · exact Or.inr (by simp [h1])
          · rw [if_neg hl] at h
            obtain ⟨ns, h1, h2, h3⟩ :=
              ih (insertName names n) agg (insertName_nodup names n hnd) h
            refine ⟨ns, h1, h2, ?_⟩
            intro x hx
            rcases h3 x hx with hx1 | hx1
            · rcases mem_insertName names n x hx1 with h4 | h4
              · exact Or.inl h4
              · exact Or.inr (by simp [h4])
            · exact Or.inr (List.mem_cons_of_mem _ hx1)

/-- Helper: processing a success event for every remaining member of a
duplicate-free sequence fires the aggregate callback exactly once, at the
last event. -/
theorem parallel_agg_all_success :
    ∀ (todo done : List String) (agg total : Nat),
      total = done.length + todo.length → (done ++ todo).Nodup → todo ≠ [] →
      parallel_agg total
        (todo.map (fun m => CompletionEv.completed m ROutcome.success)) done agg =
        agg + 1 := by
  intro todo
  induction todo with
  | nil => intro done agg total h1 h2 h3; exact absurd rfl h3
  | cons m rest ih =>
      intro done agg total htot hnd hne
      have hmnotin : m ∉ done := by
        have hd := (List.nodup_append.mp hnd).2.2
        exact fun hmem => hd hmem (by simp)
      have hins : insertName done m = done ++ [m] := by simp [insertName, hmnotin]
      simp only [List.map_cons, parallel_agg, hins]
      cases rest with
      | nil =>
          have hlen : (done ++ [m]).length = total := by
            simp at htot ⊢
            omega
          rw [if_pos hlen]
          simp [parallel_agg]
      | cons m2 rs =>
          have hlen : ¬(done ++ [m]).length = total := by
            simp at htot ⊢
            omega
          rw [if_neg hlen]
          exact ih (done ++ [m]) agg total
            (by simp at htot ⊢; omega)
            (by rw [List.append_assoc]; exact hnd)
            (by simp)

/-- C8 counterexample: with members a and b, where a fails and b succeeds,
every member of the parallel sequence reaches a terminal outcome, yet the
aggregate callback is invoked zero times instead of exactly once, because a
failed body never reaches plugin_callback. -/
theorem c8_counterexample :
    (CompletionEv.completed ("a") ROutcome.failure ∈ c8evs) ∧
    (CompletionEv.completed ("b") ROutcome.success ∈ c8evs) ∧
    parallel_run c8members c8evs = 0 := by decide

/-- C8 (amended): sequentially, a later member starts only after the
preceding member completion callback has fired, and after a failed member,
whose callback never fires, no further member ever starts; in parallel mode
the aggregate callback can fire only once the distinct successfully
completed members reach the full sequence length, so it is never invoked on
partial completion, it is never invoked when any member fails, and it is
invoked exactly once when every member completes successfully. -/
theorem c8_sequence_amended :
    (run_sequential_trace [(("a" : String), ROutcome.success), (("b" : String), ROutcome.success)] =
       [SeqEv.start ("a"), SeqEv.finish ("a"), SeqEv.callbackFired ("a"),
        SeqEv.start ("b"), SeqEv.finish ("b"), SeqEv.callbackFired ("b")]) ∧
    (∀ (p q : String) (rest : List (String × ROutcome)),
       SeqEv.start q ∈ run_sequential_trace ((p, ROutcome.failure) :: rest) → q = p) ∧
    (∀ (members : List String) (evs : List CompletionEv),
       members.Nodup →
       (∀ (n : String) (o : ROutcome), CompletionEv.completed n o ∈ evs → n ∈ members) →
       1 ≤ parallel_run members evs →
       ∀ m ∈ members, CompletionEv.completed m ROutcome.success ∈ evs) ∧
    (∀ members : List String, members.Nodup → members ≠ [] →
       parallel_run members
         (members.map (fun m => CompletionEv.completed m ROutcome.success)) = 1) := by
  refine ⟨by decide, ?_, ?_, ?_⟩
  · intro p q rest h
    simpa [run_sequential_trace] using h
  · intro members evs hnd hevs hfire m hm
    obtain ⟨ns, h1, h2, h3⟩ :=
      parallel_agg_fire members.length evs [] 0 (by simp) hfire
    have hsub : ns.toFinset ⊆ members.toFinset := by
      intro x hx
      rw [List.mem_toFinset] at hx ⊢
      rcases h3 x hx with h4 | h4
      · simp at h4
      · exact hevs x ROutcome.success h4
    have hcard : members.toFinset.card ≤ ns.toFinset.card := by
      have h5 : ns.toFinset.card = ns.length := List.toFinset_card_of_nodup h1
      have h6 : members.toFinset.card ≤ members.length := List.toFinset_card_le members
      omega
    have heq : ns.toFinset = members.toFinset := Finset.eq_of_subset_of_card_le hsub hcard
    have hmns : m ∈ ns := by
      have h7 : m ∈ members.toFinset := List.mem_toFinset.mpr hm
      rw [← heq, List.mem_toFinset] at h7
      exact h7
    rcases h3 m hmns with h8 | h8
    · simp at h8
    · exact h8
  · intro members hnd hne
    exact parallel_agg_all_success members [] 0 members.length (by simp) (by simpa using hnd) hne

/-- C8 witness: with the distinct members a and b both completing
successfully, the aggregate callback fires exactly once, and the only member
ever started after a failed first member is that first member itself. -/
theorem c8_amended_witness :
    parallel_run [("a" : String), ("b")]
      (List.map (fun m => CompletionEv.completed m ROutcome.success)
        [("a" : String), ("b")]) = 1 :=
  c8_sequence_amended.2.2.2 [("a"), ("b")] (by decide) (by decide)
